import Mathlib

/-!
# package-sbom: plan construction, execution and policy gates

A shallow embedding of `src/package-sbom/syft-provider.go` and of the request
handler of `src/package-sbom/grpc.go`.

Go strings are embedded as `String`; the string primitives of package `strings`
that the code calls are defined below on the character lists.  Strings are taken
to be valid UTF-8, on which the byte-wise primitives of Go and the character-wise
ones below find the same occurrences.  Everything the
code obtains from outside the two files (other packages, the operating system,
the backend) is a field of `World` or of `Consts`; Go `error` values are
embedded as their message.
-/

namespace PackageSbom

/-! ## String primitives of package `strings` -/

/-- Go `strings.HasPrefix(s, pre)`. -/
def hasPrefix (s pre : String) : Bool :=
  pre.data.isPrefixOf s.data

/-- Position of the first occurrence of `sub` in a character list. -/
def indexChars (sub : List Char) : List Char → Option Nat
  | [] => if sub.isPrefixOf [] then some 0 else none
  | c :: cs =>
    if sub.isPrefixOf (c :: cs) then some 0
    else (indexChars sub cs).map (· + 1)

/-- Go `strings.Index(s, sub)`: position of the first occurrence, `-1` when there
is none.  The code only compares the result with `0`. -/
def index (s sub : String) : Int :=
  match indexChars sub.data s.data with
  | some i => (i : Int)
  | none => -1

/-- Go `strings.Contains(s, sub)`. -/
def contains (s sub : String) : Bool :=
  (indexChars sub.data s.data).isSome

/-- Go `strings.Replace` for an empty `old`: `new` is inserted at the beginning and
after each character, at most `limit` times (`none`: no limit). -/
def insertChars (new : List Char) : Option Nat → List Char → List Char
  | some 0, s => s
  | _, [] => new
  | limit, c :: cs => new ++ c :: insertChars new (limit.map (· - 1)) cs

/-- Go `strings.Replace` for a non-empty `old`: the occurrences are found left to
right and do not overlap; `skip` counts the characters of a match still to be
dropped, `limit` the replacements left (`none`: no limit). -/
def replaceChars (old new : List Char) : Nat → Option Nat → List Char → List Char
  | _, _, [] => []
  | skip + 1, limit, _ :: cs => replaceChars old new skip limit cs
  | 0, limit, c :: cs =>
    if limit ≠ some 0 ∧ old.isPrefixOf (c :: cs) = true then
      new ++ replaceChars old new (old.length - 1) (limit.map (· - 1)) cs
    else
      c :: replaceChars old new 0 limit cs

/-- Go `strings.Replace(s, old, new, n)`; a negative `n` means no limit. -/
def replace (s old new : String) (n : Int) : String :=
  let limit : Option Nat := if n < 0 then none else some n.toNat
  if old.data = [] then ⟨insertChars new.data limit s.data⟩
  else ⟨replaceChars old.data new.data 0 limit s.data⟩

/-- Pieces of a character list between the occurrences of `sep`. -/
def splitChars (sep : Char) : List Char → List (List Char)
  | [] => [[]]
  | c :: cs =>
    if c = sep then [] :: splitChars sep cs
    else
      match splitChars sep cs with
      | [] => [[c]]
      | p :: ps => (c :: p) :: ps

/-- Go `strings.Split(s, sep)` for a one-character separator (the code splits on
`":"`, `","` and `"\n"`). -/
def split (s : String) (sep : Char) : List String :=
  (splitChars sep s.data).map String.mk

/-- Go `unicode.IsSpace`. -/
def isSpace (c : Char) : Bool :=
  let n := c.toNat
  n = 0x09 || n = 0x0A || n = 0x0B || n = 0x0C || n = 0x0D || n = 0x20 ||
  n = 0x85 || n = 0xA0 || n = 0x1680 || (0x2000 ≤ n && n ≤ 0x200A) ||
  n = 0x2028 || n = 0x2029 || n = 0x202F || n = 0x205F || n = 0x3000

/-- Go `strings.TrimSpace(s)`. -/
def trimSpace (s : String) : String :=
  ⟨((s.data.dropWhile isSpace).reverse.dropWhile isSpace).reverse⟩

/-! ## Data model -/

/-- Constants of packages `util` and `vessel/constants`, which are declared
outside the two source files; their values are parameters of the development. -/
structure Consts where
  NodeTypeHost : String
  NodeTypeContainer : String
  NodeTypeImage : String
  DOCKER : String
  CONTAINERD : String
  CRIO : String

/-- A `float64` as the comparison operators see it. -/
inductive F64
  | nan
  | negInf
  | fin (q : ℚ)
  | posInf
  deriving DecidableEq

namespace F64

/-- The Go comparison `a <= b` on `float64`. -/
def le : F64 → F64 → Bool
  | nan, _ => false
  | _, nan => false
  | negInf, _ => true
  | _, posInf => true
  | fin a, fin b => decide (a ≤ b)
  | _, _ => false

/-- The Go comparison `a > b` on `float64`. -/
def gt : F64 → F64 → Bool
  | nan, _ => false
  | _, nan => false
  | posInf, posInf => false
  | posInf, _ => true
  | negInf, _ => false
  | fin _, posInf => false
  | fin _, negInf => true
  | fin a, fin b => decide (b < a)

/-- The Go comparison `a >= b` on `float64`. -/
def ge (a b : F64) : Bool := le b a

/-- The literal `0` / `0.0`, also the zero value of a `float64` field. -/
def zero : F64 := fin 0

end F64

/-- The `vessel.Runtime` handle of a configuration, as far as the code uses it:
its `Save(image, file)` method, which answers with an error or with nothing. -/
structure Runtime where
  Save : String → String → Option String

/-- The fields of `util.Config` that the two files read or write.  The defaults
are the Go zero values, which a composite literal leaves in the fields it does
not name. -/
structure Config where
  Mode : String := ""
  SocketPath : String := ""
  Output : String := ""
  Quiet : Bool := false
  ManagementConsoleUrl : String := ""
  ManagementConsolePort : String := ""
  DeepfenceKey : String := ""
  Source : String := ""
  ScanType : String := ""
  VulnerabilityScan : Bool := false
  ScanId : String := ""
  NodeType : String := ""
  NodeId : String := ""
  HostName : String := ""
  ImageId : String := ""
  ContainerName : String := ""
  KubernetesClusterName : String := ""
  RegistryId : String := ""
  ContainerID : String := ""
  FailOnCount : Int := 0
  FailOnCriticalCount : Int := 0
  FailOnHighCount : Int := 0
  FailOnMediumCount : Int := 0
  FailOnLowCount : Int := 0
  FailOnScore : F64 := F64.zero
  ContainerRuntimeName : String := ""
  ContainerRuntime : Option Runtime := none

/-- Per-severity counts of a scan result. -/
structure Severity where
  Critical : Int
  High : Int
  Medium : Int
  Low : Int
  deriving DecidableEq

/-- The scan result returned by `publisher.GetVulnerabilityScanResults`. -/
structure VulnerabilityScanDetail where
  Total : Int
  Severity : Severity
  CveScore : F64
  deriving DecidableEq

/-- The struct `ContainerScan` of syft-provider.go. -/
structure ContainerScan where
  containerId : String
  tempDir : String
  namespace_ : String
  deriving DecidableEq

/-- Everything a run obtains from outside the two source files. -/
structure World where
  /-- result of `util.RandomString(12)` -/
  randomString : String
  /-- the function `filepath.Join` on two elements -/
  join : String → String → String
  /-- the function `filepath.Abs`, whose error the code discards -/
  abs : String → String
  /-- combined output of `findmnt -l -t nfs4,tmpfs -n --output=TARGET`,
  `none` when the command fails -/
  findmnt : Option String
  /-- result of `os.MkdirTemp("", "syft-")` -/
  mkdirTemp : Except String String
  /-- result of `vessel.AutoDetectRuntime()`: runtime name and endpoint -/
  autoDetectRuntime : Except String (String × String)
  /-- the method `ExtractFileSystemContainer` of the runtime of the given name, applied to
  container id, namespace, tar path and endpoint; `some e` is an error -/
  extractFileSystemContainer : String → String → String → String → String → Option String
  /-- result of `cmd.Run()` for a command given by name and arguments: `none` on success,
  else the error text and the captured standard error -/
  run : String → List String → Option (String × String)
  /-- result of `output.NewPublisher(config)`; `some e` is an error -/
  newPublisher : Config → Option String
  /-- the function `isRegistryInsecure(registryId)` -/
  isRegistryInsecure : String → Bool
  /-- the function `GetConfigFileFromRegistry(registryId)` -/
  getConfigFileFromRegistry : String → Except String String
  /-- result of `os.Environ()` -/
  environ : List String
  /-- result of `cmd.CombinedOutput()` of `syft` with the given arguments and `cmd.Env`
  (`none`: not set): the output, and the error if the tool failed -/
  syft : List String → Option (List String) → String × Option String
  /-- the function `os.ReadFile` -/
  readFile : String → Except String String
  /-- result of `publisher.GetVulnerabilityScanResults()` -/
  getVulnerabilityScanResults : Except String VulnerabilityScanDetail

/-- Calls into collaborators that a run makes, in order. -/
inductive Effect
  | mkdirTemp
  | save (image tarFile : String)
  | exportFileSystemTar (scan : ContainerScan)
  | publishScanStatus (status : String)
  | publishScanError (msg : String)
  | syft (args : List String) (env : Option (List String))
  | stopPublishScanStatus
  | runVulnerabilityScan (sbom : String)
  | getVulnerabilityScanResults
  | output (detail : VulnerabilityScanDetail)
  deriving DecidableEq

/-- How a call of `GenerateSBOM` ends. -/
inductive Outcome
  /-- the return `return sbom, nil` -/
  | returned (sbom : String)
  /-- the return `return nil, err` (`sbom = none`) or `return sbom, err` -/
  | failed (sbom : Option String) (err : String)
  /-- the call of `log.Fatalf` in `exitOnSeverity`: the process exits -/
  | exitCount (count limit : Int)
  /-- the call of `log.Fatalf` in `exitOnSeverityScore`: the process exits -/
  | exitScore (score limit : F64)
  /-- the call `os.Exit(1)` in `exportFileSystemTar`: no container runtime -/
  | exitRuntime
  deriving DecidableEq

/-- A policy-gate exit. -/
def Outcome.isGateExit : Outcome → Bool
  | .exitCount _ _ => true
  | .exitScore _ _ => true
  | _ => false

/-- What a call of `GenerateSBOM` did: how it ended, the argument vector built
for `exec.Command("syft", syftArgs...)` (once line 209 is reached), the
environment of the started subprocess (the process environment when `cmd.Env`
is not set), the scan results once retrieved, and the calls made.  The deferred
removal of temporary files is not part of the embedding. -/
structure Run where
  outcome : Outcome
  args : Option (List String)
  env : Option (List String)
  results : Option VulnerabilityScanDetail
  trace : List Effect

/-! ## syft-provider.go -/

/-- The variable `linuxExcludeDirs`. -/
def linuxExcludeDirs : List String :=
  ["/var/lib/docker", "/var/lib/containerd", "/var/lib/containers", "/var/lib/crio",
   "/var/run/containers", "/mnt", "/run", "/proc", "/dev", "/boot",
   "/home/kubernetes/containerized_mounter", "/sys", "/lost+found"]

/-- The function `getNfsMountsDirs`: the non-blank lines of the `findmnt` output. -/
def getNfsMountsDirs (w : World) : List String :=
  match w.findmnt with
  | none => []
  | some cmdOutput => (split cmdOutput '\n').filter (fun i => trimSpace i != "")

/-- The variable `mntDirs`, set from `getNfsMountsDirs()` at process start. -/
def mntDirs (w : World) : List String :=
  getNfsMountsDirs w

/-- The function `runCommand`; the captured standard output, which no caller
reads, is left out. -/
def runCommand (w : World) (name : String) (args : List String) (operation : String) :
    Except String Unit :=
  match w.run name args with
  | some (errorOnRun, stderr) => .error (operation ++ errorOnRun ++ ": " ++ stderr)
  | none => .ok ()

/-- Result of `exportFileSystemTar`: `nil`, an error, or no return at all. -/
inductive ExportResult
  | ok
  | err (e : String)
  | exit
  deriving DecidableEq

/-- The method `exportFileSystemTar` of `ContainerScan`. -/
def exportFileSystemTar (k : Consts) (w : World) (containerScan : ContainerScan) :
    ExportResult :=
  match w.autoDetectRuntime with
  | .error err => .err err
  | .ok (containerRuntime, endpoint) =>
    if containerRuntime = k.DOCKER ∨ containerRuntime = k.CONTAINERD ∨
        containerRuntime = k.CRIO then
      match w.extractFileSystemContainer containerRuntime containerScan.containerId
          containerScan.namespace_ (containerScan.tempDir ++ ".tar") endpoint with
      | some err => .err err
      | none =>
        match runCommand w "tar"
            ["-xf", trimSpace (containerScan.tempDir ++ ".tar"), "-C", containerScan.tempDir]
            ("tar : " ++ containerScan.tempDir) with
        | .error err => .err err
        | .ok _ => .ok
    else .exit

/-- The output file `jsonFile` (line 85). -/
def jsonFile (w : World) : String :=
  w.join "/tmp" (w.randomString ++ "output.json")

/-- Lines 88-90: the fixed exclusions, relative to the scan directory. -/
def excludeRelative (syftArgs : List String) : List String :=
  linuxExcludeDirs.foldl
    (fun acc excludeDir => acc ++ ["--exclude", "." ++ excludeDir ++ "/**"]) syftArgs

/-- Lines 97-100: the exclusion pattern of one mount point. -/
def mountExclude (scanDir excludeDir : String) : String :=
  let excludeDir :=
    if index excludeDir scanDir = 0 then replace excludeDir scanDir "" 1 else excludeDir
  "." ++ excludeDir ++ "/**"

/-- Lines 96-101: the exclusions of the mount points. -/
def excludeMounts (w : World) (scanDir : String) (syftArgs : List String) : List String :=
  (mntDirs w).foldl
    (fun acc excludeDir => acc ++ ["--exclude", mountExclude scanDir excludeDir]) syftArgs

/-- Lines 91-95: the resolved scan directory of a directory target. -/
def scanDirOf (w : World) (source : String) : String :=
  let scanDir := if hasPrefix source "dir:" then (split source ':').getD 1 "" else source
  w.abs scanDir

/-- Lines 104-106: the fixed exclusions of an image target, verbatim. -/
def excludeVerbatim (syftArgs : List String) : List String :=
  linuxExcludeDirs.foldl (fun acc excludeDir => acc ++ ["--exclude", excludeDir]) syftArgs

/-- Lines 85-166 of `GenerateSBOM`: the argument vector before the cataloger
selection, or the early return, with the calls made. -/
def resolveTarget (k : Consts) (w : World) (config : Config) :
    Except Outcome (List String) × List Effect :=
  let syftArgs := ["packages", config.Source, "-o", "json", "--file", jsonFile w, "-q"]
  if hasPrefix config.Source "dir:" || config.Source == "." then
    let syftArgs := excludeRelative syftArgs
    (.ok (excludeMounts w (scanDirOf w config.Source) syftArgs), [])
  else
    let syftArgs :=
      if config.NodeType != k.NodeTypeContainer then excludeVerbatim syftArgs else syftArgs
    if !hasPrefix config.Source "registry:" then
      match (if config.ContainerRuntimeName = k.CONTAINERD ∨
                config.ContainerRuntimeName = k.CRIO
             then config.ContainerRuntime else none) with
      | some containerRuntime =>
        match w.mkdirTemp with
        | .error err => (.error (.failed none err), [.mkdirTemp])
        | .ok tmpDir =>
          let tarFile := w.join tmpDir "image.tar"
          match containerRuntime.Save config.Source tarFile with
          | some err => (.error (.failed none err), [.mkdirTemp, .save config.Source tarFile])
          | none =>
            let locator :=
              if config.ContainerRuntimeName = k.CONTAINERD then "oci-archive:" ++ tarFile
              else if config.ContainerRuntimeName = k.CRIO then "docker-archive:" ++ tarFile
              else syftArgs.getD 1 ""
            (.ok (syftArgs.set 1 locator), [.mkdirTemp, .save config.Source tarFile])
      | none =>
        if config.NodeType = k.NodeTypeContainer then
          match w.mkdirTemp with
          | .error err => (.error (.failed none err), [.mkdirTemp])
          | .ok tmpDir =>
            let containerScan : ContainerScan :=
              if config.KubernetesClusterName != "" then
                { containerId := config.ContainerID, tempDir := tmpDir, namespace_ := "" }
              else
                { containerId := config.ContainerName, tempDir := tmpDir,
                  namespace_ := "default" }
            match exportFileSystemTar k w containerScan with
            | .exit => (.error .exitRuntime, [.mkdirTemp, .exportFileSystemTar containerScan])
            | .err err =>
              (.error (.failed none err), [.mkdirTemp, .exportFileSystemTar containerScan])
            | .ok =>
              (.ok (syftArgs.set 1 ("dir:" ++ tmpDir)),
                [.mkdirTemp, .exportFileSystemTar containerScan])
        else (.ok syftArgs, [])
    else (.ok syftArgs, [])

/-- Lines 170-188: the arguments appended for one tag of the scan type. -/
def appendCatalogers (syftArgs : List String) (scanType : String) : List String :=
  if scanType = "base" then
    syftArgs ++ ["--catalogers", "dpkgdb-cataloger", "--catalogers", "rpmdb-cataloger",
      "--catalogers", "apkdb-cataloger", "--catalogers", "alpmdb-cataloger"]
  else if scanType = "ruby" then
    syftArgs ++ ["--catalogers", "ruby-gemfile-cataloger",
      "--catalogers", "ruby-gemspec-cataloger"]
  else if scanType = "python" then
    syftArgs ++ ["--catalogers", "python-index-cataloger",
      "--catalogers", "python-package-cataloger"]
  else if scanType = "javascript" then
    syftArgs ++ ["--catalogers", "javascript-lock-cataloger",
      "--catalogers", "javascript-package-cataloger"]
  else if scanType = "php" then
    syftArgs ++ ["--catalogers", "php-composer-installed-cataloger",
      "--catalogers", "php-composer-lock-cataloger"]
  else if scanType = "golang" then
    syftArgs ++ ["--catalogers", "go-mod-file-cataloger"]
  else if scanType = "java" then
    syftArgs ++ ["--catalogers", "java-cataloger"]
  else if scanType = "rust" then
    syftArgs ++ ["--catalogers", "rust-cataloger"]
  else if scanType = "dotnet" then
    syftArgs ++ ["--catalogers", "dotnet-deps-cataloger"]
  else syftArgs

/-- Lines 167-190: the cataloger selection. -/
def selectCatalogers (config : Config) (syftArgs : List String) : List String :=
  if config.ScanType != "" && config.ScanType != "all" then
    (split config.ScanType ',').foldl appendCatalogers syftArgs
  else syftArgs

/-- Lines 85-190: the argument vector as built before the publisher is created. -/
def buildSyftArgs (k : Consts) (w : World) (config : Config) :
    Except Outcome (List String) × List Effect :=
  match resolveTarget k w config with
  | (.ok syftArgs, t) => (.ok (selectCatalogers config syftArgs), t)
  | (.error o, t) => (.error o, t)

/-- Lines 204-207: the registry prefix is removed for an insecure registry. -/
def stripInsecure (w : World) (config : Config) (syftArgs : List String) : List String :=
  if contains (syftArgs.getD 1 "") "registry:" && w.isRegistryInsecure config.RegistryId then
    syftArgs.set 1 (replace (syftArgs.getD 1 "") "registry:" "" (-1))
  else syftArgs

/-- Lines 210-225: the value of `cmd.Env` (`none`: not set), or the error of
`GetConfigFileFromRegistry`. -/
def commandEnv (k : Consts) (w : World) (config : Config) :
    Except String (Option (List String)) :=
  if config.RegistryId != "" && config.NodeType == k.NodeTypeImage then
    match w.getConfigFileFromRegistry config.RegistryId with
    | .error err => .error err
    | .ok authFilePath =>
      let env := w.environ
      let env := if authFilePath != "" then env ++ ["DOCKER_CONFIG=" ++ authFilePath] else env
      let env :=
        if w.isRegistryInsecure config.RegistryId then
          env ++ ["SYFT_REGISTRY_INSECURE_SKIP_TLS_VERIFY=true",
                  "SYFT_REGISTRY_INSECURE_USE_HTTP=true"]
        else env
      .ok (some env)
  else .ok none

/-- The closure `exitOnSeverity` (lines 264-269): `some` is the fatal exit. -/
def exitOnSeverity (count failOnCount : Int) : Option Outcome :=
  if count ≥ failOnCount then some (.exitCount count failOnCount) else none

/-- The closure `exitOnSeverityScore` (lines 283-288): `some` is the fatal exit. -/
def exitOnSeverityScore (score failOnScore : F64) : Option Outcome :=
  if F64.ge score failOnScore then some (.exitScore score failOnScore) else none

/-- Lines 263-281: the count gates. -/
def countGates (config : Config) (d : VulnerabilityScanDetail) : Option Outcome :=
  if config.FailOnCount > 0 then
    if d.Total ≥ config.FailOnCount then
      exitOnSeverity d.Total config.FailOnCount
    else if d.Severity.Critical ≥ config.FailOnCriticalCount then
      exitOnSeverity d.Severity.Critical config.FailOnCriticalCount
    else if d.Severity.High ≥ config.FailOnHighCount then
      exitOnSeverity d.Severity.High config.FailOnHighCount
    else if d.Severity.Medium ≥ config.FailOnMediumCount then
      exitOnSeverity d.Severity.Medium config.FailOnMediumCount
    else if d.Severity.Low ≥ config.FailOnLowCount then
      exitOnSeverity d.Severity.Low config.FailOnLowCount
    else none
  else none

/-- Lines 282-290: the score gate. -/
def scoreGate (config : Config) (d : VulnerabilityScanDetail) : Option Outcome :=
  if F64.gt config.FailOnScore F64.zero then
    exitOnSeverityScore d.CveScore config.FailOnScore
  else none

/-- Lines 263-293: the count gates, then the score gate, then `return sbom, nil`. -/
def policyGates (config : Config) (d : VulnerabilityScanDetail) (sbom : String) : Outcome :=
  match countGates config d with
  | some o => o
  | none =>
    match scoreGate config d with
    | some o => o
    | none => .returned sbom

/-- Lines 244-293: what follows the reading of the output file. -/
def afterRead (w : World) (config : Config) (syftArgs : List String)
    (env : List String) (t : List Effect) (sbom : String) : Run :=
  if config.VulnerabilityScan = true then
    let t := t ++ [.stopPublishScanStatus, .runVulnerabilityScan sbom]
    if config.Quiet = true ∧ F64.le config.FailOnScore F64.zero = true ∧
        config.FailOnCount ≤ 0 then
      { outcome := .returned sbom, args := some syftArgs, env := some env,
        results := none, trace := t }
    else
      match w.getVulnerabilityScanResults with
      | .error err =>
        { outcome := .failed (some sbom) err, args := some syftArgs, env := some env,
          results := none, trace := t ++ [.getVulnerabilityScanResults] }
      | .ok d =>
        { outcome := policyGates config d sbom, args := some syftArgs, env := some env,
          results := some d,
          trace := t ++ [.getVulnerabilityScanResults] ++
            (if config.Quiet = false then [.output d] else []) }
  else
    { outcome := .returned sbom, args := some syftArgs, env := some env,
      results := none, trace := t }

/-- Lines 209-293: the command is run on the built argument vector. -/
def runSyft (k : Consts) (w : World) (config : Config) (syftArgs : List String)
    (t : List Effect) : Run :=
  match commandEnv k w config with
  | .error err =>
    { outcome := .failed none err, args := some syftArgs, env := none,
      results := none, trace := t }
  | .ok cmdEnv =>
    let env := cmdEnv.getD w.environ
    let t := t ++ [.syft syftArgs cmdEnv]
    match w.syft syftArgs cmdEnv with
    | (stdout, some err) =>
      { outcome := .failed none err, args := some syftArgs, env := some env,
        results := none,
        trace := t ++ (if config.VulnerabilityScan = true
                       then [.publishScanError (stdout ++ " " ++ err)] else []) }
    | (_, none) =>
      match w.readFile (jsonFile w) with
      | .error err =>
        { outcome := .failed none err, args := some syftArgs, env := some env,
          results := none, trace := t }
      | .ok sbom => afterRead w config syftArgs env t sbom

/-- The function `GenerateSBOM` of syft-provider.go. -/
def GenerateSBOM (k : Consts) (w : World) (config : Config) : Run :=
  match buildSyftArgs k w config with
  | (.error o, t) => { outcome := o, args := none, env := none, results := none, trace := t }
  | (.ok syftArgs, t) =>
    match (if config.VulnerabilityScan = true then w.newPublisher config else none) with
    | some err =>
      { outcome := .failed none err, args := none, env := none, results := none, trace := t }
    | none =>
      let t :=
        t ++ (if config.VulnerabilityScan = true
              then [.publishScanStatus "GENERATING_SBOM"] else [])
      runSyft k w config (stripInsecure w config syftArgs) t

/-! ## grpc.go -/

/-- The message `pb.SBOMRequest`, with the fields the handler reads. -/
structure SBOMRequest where
  Source : String
  ScanType : String
  ScanId : String
  NodeType : String
  HostName : String
  ImageId : String
  ContainerName : String
  KubernetesClusterName : String
  RegistryId : String
  ContainerId : String

/-- The message `pb.SBOMResult`. -/
structure SBOMResult where
  Sbom : String
  deriving DecidableEq

/-- Lines 93-104 of the handler: node id and node type of a request. -/
def classify (k : Consts) (r : SBOMRequest) : String × String :=
  if hasPrefix r.Source "dir:" || r.Source == "." then
    (r.HostName, k.NodeTypeHost)
  else if r.NodeType = k.NodeTypeContainer then
    (r.Source, k.NodeTypeContainer)
  else
    (r.Source, k.NodeTypeImage)

/-- Lines 105-125 of the handler: the configuration handed to the worker pool;
`s` is the configuration of the server. -/
def handlerConfig (k : Consts) (s : Config) (r : SBOMRequest) : Config :=
  { Mode := s.Mode
    SocketPath := s.SocketPath
    Output := ""
    Quiet := true
    ManagementConsoleUrl := s.ManagementConsoleUrl
    ManagementConsolePort := s.ManagementConsolePort
    DeepfenceKey := s.DeepfenceKey
    Source := r.Source
    ScanType := r.ScanType
    VulnerabilityScan := true
    ScanId := r.ScanId
    NodeType := (classify k r).2
    NodeId := (classify k r).1
    HostName := r.HostName
    ImageId := r.ImageId
    ContainerName := r.ContainerName
    KubernetesClusterName := r.KubernetesClusterName
    RegistryId := r.RegistryId
    ContainerID := r.ContainerId }

/-- What the handler does with a request: its answer, its error, and the
configuration it hands to the worker pool. -/
structure Handled where
  result : SBOMResult
  err : Option String
  submitted : Config

/-- The method `GenerateSBOM` of `gRPCServer`. -/
def gRPCServer.GenerateSBOM (k : Consts) (s : Config) (r : SBOMRequest) : Handled :=
  { result := { Sbom := "sbom generation started" }
    err := none
    submitted := handlerConfig k s r }

/-- The function `processSbomGeneration`, run by a worker on a submitted
configuration: it runs `GenerateSBOM` and answers `nil` in every case. -/
def processSbomGeneration (k : Consts) (w : World) (config : Config) : Run :=
  GenerateSBOM k w config

/-! ## The cataloger selection as the specification words it -/

/-- The fixed catalogers of each recognised ecosystem tag. -/
def specCatalogers : List (String × List String) :=
  [("base", ["dpkgdb-cataloger", "rpmdb-cataloger", "apkdb-cataloger", "alpmdb-cataloger"]),
   ("ruby", ["ruby-gemfile-cataloger", "ruby-gemspec-cataloger"]),
   ("python", ["python-index-cataloger", "python-package-cataloger"]),
   ("javascript", ["javascript-lock-cataloger", "javascript-package-cataloger"]),
   ("php", ["php-composer-installed-cataloger", "php-composer-lock-cataloger"]),
   ("golang", ["go-mod-file-cataloger"]),
   ("java", ["java-cataloger"]),
   ("rust", ["rust-cataloger"]),
   ("dotnet", ["dotnet-deps-cataloger"])]

/-- The `--catalogers <name>` pairs of one tag; none for an unrecognised tag. -/
def specTagArgs (tag : String) : List String :=
  ((specCatalogers.lookup tag).getD []).flatMap (fun name => ["--catalogers", name])

/-- The cataloger arguments of a scan-type filter: nothing for an empty filter
or `"all"`, else the pairs of the comma-separated tags, concatenated in order. -/
def specCatalogerArgs (scanType : String) : List String :=
  if scanType = "" ∨ scanType = "all" then []
  else (split scanType ',').flatMap specTagArgs

/-! ## Concrete constants, worlds and requests -/

/-- Sample values of the constants. -/
def sampleConsts : Consts :=
  { NodeTypeHost := "host", NodeTypeContainer := "container", NodeTypeImage := "image",
    DOCKER := "docker", CONTAINERD := "containerd", CRIO := "crio" }

/-- A world in which every collaborator succeeds, one NFS mount `/mnt/nfs` is
found, every registry is insecure and the scan finds nothing. -/
def sampleWorld : World :=
  { randomString := "abcdefghijkl"
    join := fun a b => a ++ "/" ++ b
    abs := fun p => p
    findmnt := some "/mnt/nfs\n"
    mkdirTemp := .ok "/tmp/syft-1"
    autoDetectRuntime := .ok ("docker", "unix:///var/run/docker.sock")
    extractFileSystemContainer := fun _ _ _ _ _ => none
    run := fun _ _ => none
    newPublisher := fun _ => none
    isRegistryInsecure := fun _ => true
    getConfigFileFromRegistry := fun _ => .ok "/tmp/auth-1"
    environ := ["PATH=/usr/bin"]
    syft := fun _ _ => ("", none)
    readFile := fun _ => .ok "sbom"
    getVulnerabilityScanResults :=
      .ok { Total := 0, Severity := { Critical := 0, High := 0, Medium := 0, Low := 0 },
            CveScore := F64.zero } }

/-- The sample world with a scan result of ten vulnerabilities, all critical. -/
def criticalWorld : World :=
  { sampleWorld with
    getVulnerabilityScanResults :=
      .ok { Total := 10, Severity := { Critical := 10, High := 0, Medium := 0, Low := 0 },
            CveScore := F64.zero } }

/-- The sample world with a detected runtime that is none of docker,
containerd and CRI-O. -/
def podmanWorld : World :=
  { sampleWorld with autoDetectRuntime := .ok ("podman", "unix:///run/podman/podman.sock") }

/-- A request to scan the running container `web-1` of host `node-1`. -/
def containerRequest : SBOMRequest :=
  { Source := "web-1", ScanType := "", ScanId := "scan-2", NodeType := "container",
    HostName := "node-1", ImageId := "", ContainerName := "web-1",
    KubernetesClusterName := "", RegistryId := "", ContainerId := "" }

/-- A request to scan a directory of host `node-1`. -/
def dirRequest : SBOMRequest :=
  { Source := "dir:/tmp/x", ScanType := "python,ruby", ScanId := "scan-1", NodeType := "",
    HostName := "node-1", ImageId := "", ContainerName := "", KubernetesClusterName := "",
    RegistryId := "", ContainerId := "" }

/-- The configuration of the end-to-end example: a directory target with the
scan-type filter `python,ruby`. -/
def pythonRubyConfig : Config :=
  { Source := "dir:/tmp/x", ScanType := "python,ruby" }

/-- The argument vector of `pythonRubyConfig` in the sample world before the
cataloger selection. -/
def pythonRubyTargetArgs : List String :=
  ["packages", "dir:/tmp/x", "-o", "json", "--file", "/tmp/abcdefghijkloutput.json", "-q",
   "--exclude", "./var/lib/docker/**", "--exclude", "./var/lib/containerd/**",
   "--exclude", "./var/lib/containers/**", "--exclude", "./var/lib/crio/**",
   "--exclude", "./var/run/containers/**", "--exclude", "./mnt/**", "--exclude", "./run/**",
   "--exclude", "./proc/**", "--exclude", "./dev/**", "--exclude", "./boot/**",
   "--exclude", "./home/kubernetes/containerized_mounter/**", "--exclude", "./sys/**",
   "--exclude", "./lost+found/**", "--exclude", "./mnt/nfs/**"]

/-- A registry target of an insecure registry, scanned as an image. -/
def insecureImageConfig : Config :=
  { Source := "registry:reg.local/app:1", NodeType := "image", RegistryId := "reg-1" }

/-- The same registry target with node type Container. -/
def insecureContainerConfig : Config :=
  { Source := "registry:reg.local/app:1", NodeType := "container", RegistryId := "reg-1" }

/-- A registry target in which the removal of the scheme prefix puts a new one
together. -/
def reassembledConfig : Config :=
  { Source := "registry:regisregistry:try:5000/app", NodeType := "image",
    RegistryId := "reg-1" }

/-- A container target on a host whose runtime is containerd, with a runtime
handle whose `Save` succeeds. -/
def containerdContainerConfig : Config :=
  { Source := "web-1", NodeType := "container", ContainerName := "web-1",
    ContainerRuntimeName := "containerd",
    ContainerRuntime := some { Save := fun _ _ => none } }

/-- The directory target `dir:/`. -/
def rootDirConfig : Config :=
  { Source := "dir:/" }

/-- An image scan with vulnerability scanning and a total-count threshold of ten. -/
def countTenConfig : Config :=
  { Source := "nginx:latest", NodeType := "image", VulnerabilityScan := true,
    FailOnCount := 10 }

/-- An image scan with vulnerability scanning and only the critical-count
threshold set. -/
def criticalOnlyConfig : Config :=
  { Source := "nginx:latest", NodeType := "image", VulnerabilityScan := true,
    FailOnCriticalCount := 5 }

/-- An image scan with vulnerability scanning and only the total-count threshold
set. -/
def countOnlyConfig : Config :=
  { Source := "nginx:latest", NodeType := "image", VulnerabilityScan := true,
    FailOnCount := 5 }

/-! ## Auxiliary facts -/

theorem foldl_append_flatMap {α : Type} (f : α → List String) (l : List α) (a : List String) :
    l.foldl (fun acc d => acc ++ f d) a = a ++ l.flatMap f := by
  induction l generalizing a with
  | nil => simp
  | cons x xs ih => simp [List.foldl_cons, ih, List.flatMap_cons, List.append_assoc]

theorem appendCatalogers_eq (syftArgs : List String) (tag : String) :
    appendCatalogers syftArgs tag = syftArgs ++ specTagArgs tag := by
  unfold appendCatalogers
  split_ifs with h1 h2 h3 h4 h5 h6 h7 h8 h9
  all_goals first
    | (subst_vars; rfl)
    | (have e1 := beq_false_of_ne h1
       have e2 := beq_false_of_ne h2
       have e3 := beq_false_of_ne h3
       have e4 := beq_false_of_ne h4
       have e5 := beq_false_of_ne h5
       have e6 := beq_false_of_ne h6
       have e7 := beq_false_of_ne h7
       have e8 := beq_false_of_ne h8
       have e9 := beq_false_of_ne h9
       simp [specTagArgs, specCatalogers, List.lookup, e1, e2, e3, e4, e5, e6, e7, e8, e9])

theorem foldl_appendCatalogers (tags : List String) (syftArgs : List String) :
    tags.foldl appendCatalogers syftArgs = syftArgs ++ tags.flatMap specTagArgs := by
  induction tags generalizing syftArgs with
  | nil => simp
  | cons x xs ih =>
    simp [List.foldl_cons, ih, appendCatalogers_eq, List.flatMap_cons, List.append_assoc]

theorem selectCatalogers_eq (config : Config) (syftArgs : List String) :
    selectCatalogers config syftArgs = syftArgs ++ specCatalogerArgs config.ScanType := by
  unfold selectCatalogers specCatalogerArgs
  by_cases h1 : config.ScanType = ""
  · simp [h1]
  · by_cases h2 : config.ScanType = "all"
    · simp [h2]
    · simp [h1, h2, foldl_appendCatalogers]

theorem excludeRelative_eq (syftArgs : List String) :
    excludeRelative syftArgs =
      syftArgs ++ linuxExcludeDirs.flatMap (fun d => ["--exclude", "." ++ d ++ "/**"]) :=
  foldl_append_flatMap (fun d => ["--exclude", "." ++ d ++ "/**"]) _ _

theorem excludeVerbatim_eq (syftArgs : List String) :
    excludeVerbatim syftArgs = syftArgs ++ linuxExcludeDirs.flatMap (fun d => ["--exclude", d]) :=
  foldl_append_flatMap (fun d => ["--exclude", d]) _ _

theorem excludeMounts_eq (w : World) (scanDir : String) (syftArgs : List String) :
    excludeMounts w scanDir syftArgs =
      syftArgs ++ (mntDirs w).flatMap (fun d => ["--exclude", mountExclude scanDir d]) :=
  foldl_append_flatMap (fun d => ["--exclude", mountExclude scanDir d]) _ _

theorem resolveTarget_length (k : Consts) (w : World) (config : Config)
    (targetArgs : List String) (h : (resolveTarget k w config).1 = .ok targetArgs) :
    2 ≤ targetArgs.length := by
  unfold resolveTarget at h
  simp only [excludeRelative_eq, excludeVerbatim_eq, excludeMounts_eq] at h
  repeat' split at h
  all_goals first
    | (simp at h; done)
    | (simp at h
       subst h
       simp [List.length_set]
       try omega)

theorem stripInsecure_append (w : World) (config : Config) (a b : List String)
    (h : 2 ≤ a.length) :
    stripInsecure w config (a ++ b) = stripInsecure w config a ++ b := by
  unfold stripInsecure
  rw [List.getD_append a b "" 1 (by omega)]
  split
  · rw [List.set_append_left 1 _ (by omega)]
  · rfl

theorem resolveTarget_error (k : Consts) (w : World) (config : Config) (o : Outcome)
    (h : (resolveTarget k w config).1 = .error o) :
    o = .exitRuntime ∨ ∃ err, o = .failed none err := by
  simp only [resolveTarget] at h
  repeat' split at h
  all_goals simp at h
  all_goals subst h
  all_goals simp

theorem resolveTarget_trace (k : Consts) (w : World) (config : Config) :
    Effect.getVulnerabilityScanResults ∉ (resolveTarget k w config).2 := by
  simp only [resolveTarget]
  repeat' split
  all_goals simp

theorem buildSyftArgs_fst (k : Consts) (w : World) (config : Config) :
    (buildSyftArgs k w config).1 =
      match (resolveTarget k w config).1 with
      | .ok targetArgs => .ok (targetArgs ++ specCatalogerArgs config.ScanType)
      | .error o => .error o := by
  unfold buildSyftArgs
  split <;> rename_i h <;> simp [h, selectCatalogers_eq]

theorem buildSyftArgs_snd (k : Consts) (w : World) (config : Config) :
    (buildSyftArgs k w config).2 = (resolveTarget k w config).2 := by
  unfold buildSyftArgs
  split <;> rename_i h <;> simp [h]

theorem afterRead_results (w : World) (config : Config) (syftArgs env : List String)
    (t : List Effect) (sbom : String) (d : VulnerabilityScanDetail)
    (h : (afterRead w config syftArgs env t sbom).results = some d) :
    (afterRead w config syftArgs env t sbom).outcome = policyGates config d sbom ∧
      config.VulnerabilityScan = true ∧ w.getVulnerabilityScanResults = .ok d := by
  unfold afterRead at h ⊢
  by_cases hv : config.VulnerabilityScan = true
  · by_cases hq : config.Quiet = true ∧ F64.le config.FailOnScore F64.zero = true ∧
        config.FailOnCount ≤ 0
    · simp [hv, hq] at h
    · cases hr : w.getVulnerabilityScanResults with
      | error e => simp [hv, hq, hr] at h
      | ok d1 =>
        simp [hv, hq, hr] at h
        subst h
        simp [hv, hq]
  · simp [hv] at h

theorem runSyft_results (k : Consts) (w : World) (config : Config) (syftArgs : List String)
    (t : List Effect) (d : VulnerabilityScanDetail)
    (h : (runSyft k w config syftArgs t).results = some d) :
    ∃ sbom, (runSyft k w config syftArgs t).outcome = policyGates config d sbom ∧
      config.VulnerabilityScan = true ∧ w.getVulnerabilityScanResults = .ok d := by
  unfold runSyft at h ⊢
  cases he : commandEnv k w config with
  | error e => simp [he] at h
  | ok cmdEnv =>
    simp only [he] at h ⊢
    rcases hs : w.syft syftArgs cmdEnv with ⟨stdout, _ | err⟩
    · simp only [hs] at h ⊢
      cases hr : w.readFile (jsonFile w) with
      | error e => simp [hr] at h
      | ok sbom =>
        simp only [hr] at h ⊢
        exact ⟨sbom, afterRead_results _ _ _ _ _ _ _ h⟩
    · simp [hs] at h

theorem GenerateSBOM_results (k : Consts) (w : World) (config : Config)
    (d : VulnerabilityScanDetail) (h : (GenerateSBOM k w config).results = some d) :
    ∃ sbom, (GenerateSBOM k w config).outcome = policyGates config d sbom ∧
      config.VulnerabilityScan = true ∧ w.getVulnerabilityScanResults = .ok d := by
  unfold GenerateSBOM at h ⊢
  rcases hb : buildSyftArgs k w config with ⟨_ | syftArgs, t⟩
  · simp [hb] at h
  · simp only [hb] at h ⊢
    cases hp : (if config.VulnerabilityScan = true then w.newPublisher config else none) with
    | some e => simp [hp] at h
    | none =>
      simp only [hp] at h ⊢
      exact runSyft_results _ _ _ _ _ _ h

theorem afterRead_args (w : World) (config : Config) (syftArgs env : List String)
    (t : List Effect) (sbom : String) :
    (afterRead w config syftArgs env t sbom).args = some syftArgs ∧
      (afterRead w config syftArgs env t sbom).env = some env := by
  unfold afterRead
  by_cases hv : config.VulnerabilityScan = true
  · by_cases hq : config.Quiet = true ∧ F64.le config.FailOnScore F64.zero = true ∧
        config.FailOnCount ≤ 0
    · simp [hv, hq]
    · cases hr : w.getVulnerabilityScanResults <;> simp [hv, hq]
  · simp [hv]

theorem runSyft_args (k : Consts) (w : World) (config : Config) (syftArgs : List String)
    (t : List Effect) : (runSyft k w config syftArgs t).args = some syftArgs := by
  unfold runSyft
  cases he : commandEnv k w config with
  | error e => rfl
  | ok cmdEnv =>
    simp only []
    rcases hs : w.syft syftArgs cmdEnv with ⟨stdout, _ | err⟩
    · simp only []
      cases hr : w.readFile (jsonFile w) with
      | error e => rfl
      | ok sbom => exact (afterRead_args _ _ _ _ _ _).1
    · rfl

theorem runSyft_env (k : Consts) (w : World) (config : Config) (syftArgs : List String)
    (t : List Effect) (env : List String) (h : (runSyft k w config syftArgs t).env = some env) :
    ∃ cmdEnv, commandEnv k w config = .ok cmdEnv ∧ env = cmdEnv.getD w.environ := by
  unfold runSyft at h
  cases he : commandEnv k w config with
  | error e => simp [he] at h
  | ok cmdEnv =>
    refine ⟨cmdEnv, rfl, ?_⟩
    simp only [he] at h
    rcases hs : w.syft syftArgs cmdEnv with ⟨stdout, _ | err⟩
    · simp only [hs] at h
      cases hr : w.readFile (jsonFile w) with
      | error e =>
        simp only [hr] at h
        exact (Option.some.inj h).symm
      | ok sbom =>
        simp only [hr] at h
        rw [(afterRead_args _ _ _ _ _ _).2] at h
        exact (Option.some.inj h).symm
    · simp only [hs] at h
      exact (Option.some.inj h).symm

theorem GenerateSBOM_args (k : Consts) (w : World) (config : Config)
    (targetArgs args : List String) (ht : (resolveTarget k w config).1 = .ok targetArgs)
    (h : (GenerateSBOM k w config).args = some args) :
    args = stripInsecure w config targetArgs ++ specCatalogerArgs config.ScanType := by
  have hb := buildSyftArgs_fst k w config
  rw [ht] at hb
  simp only [] at hb
  unfold GenerateSBOM at h
  rcases hb2 : buildSyftArgs k w config with ⟨_ | syftArgs, t⟩
  · simp [hb2] at hb
  · simp only [hb2] at h hb
    cases hp : (if config.VulnerabilityScan = true then w.newPublisher config else none) with
    | some e => simp [hp] at h
    | none =>
      simp only [hp, runSyft_args] at h
      have hs : syftArgs = targetArgs ++ specCatalogerArgs config.ScanType := by
        injection hb
      rw [← Option.some.inj h, hs]
      exact stripInsecure_append _ _ _ _ (resolveTarget_length k w config _ ht)

theorem GenerateSBOM_env (k : Consts) (w : World) (config : Config) (env : List String)
    (h : (GenerateSBOM k w config).env = some env) :
    ∃ cmdEnv, commandEnv k w config = .ok cmdEnv ∧ env = cmdEnv.getD w.environ := by
  unfold GenerateSBOM at h
  rcases hb : buildSyftArgs k w config with ⟨_ | syftArgs, t⟩
  · simp [hb] at h
  · simp only [hb] at h
    cases hp : (if config.VulnerabilityScan = true then w.newPublisher config else none) with
    | some e => simp [hp] at h
    | none =>
      simp only [hp] at h
      exact runSyft_env _ _ _ _ _ _ h

theorem runSyft_quiet (k : Consts) (w : World) (config : Config) (syftArgs : List String)
    (t : List Effect) (hv : config.VulnerabilityScan = true)
    (hq : config.Quiet = true ∧ F64.le config.FailOnScore F64.zero = true ∧
      config.FailOnCount ≤ 0)
    (ht : Effect.getVulnerabilityScanResults ∉ t) :
    (runSyft k w config syftArgs t).results = none ∧
      Effect.getVulnerabilityScanResults ∉ (runSyft k w config syftArgs t).trace ∧
      ((∃ sbom, w.readFile (jsonFile w) = .ok sbom ∧
          (runSyft k w config syftArgs t).outcome = .returned sbom) ∨
        ∃ err, (runSyft k w config syftArgs t).outcome = .failed none err) := by
  unfold runSyft
  cases he : commandEnv k w config with
  | error e => simp [ht]
  | ok cmdEnv =>
    simp only []
    rcases hs : w.syft syftArgs cmdEnv with ⟨stdout, _ | err⟩
    · simp only []
      cases hr : w.readFile (jsonFile w) with
      | error e => simp [ht]
      | ok sbom => simp [afterRead, hv, hq, ht]
    · simp [ht, hv]

theorem GenerateSBOM_quiet (k : Consts) (w : World) (config : Config)
    (hv : config.VulnerabilityScan = true)
    (hq : config.Quiet = true ∧ F64.le config.FailOnScore F64.zero = true ∧
      config.FailOnCount ≤ 0) :
    (GenerateSBOM k w config).results = none ∧
      Effect.getVulnerabilityScanResults ∉ (GenerateSBOM k w config).trace ∧
      ((∃ sbom, w.readFile (jsonFile w) = .ok sbom ∧
          (GenerateSBOM k w config).outcome = .returned sbom) ∨
        (∃ err, (GenerateSBOM k w config).outcome = .failed none err) ∨
        (GenerateSBOM k w config).outcome = .exitRuntime) := by
  have htr := resolveTarget_trace k w config
  rw [← buildSyftArgs_snd] at htr
  have hfst := buildSyftArgs_fst k w config
  unfold GenerateSBOM
  rcases hb : buildSyftArgs k w config with ⟨o | syftArgs, t⟩
  · rw [hb] at htr hfst
    simp only [] at htr hfst
    refine ⟨rfl, htr, Or.inr ?_⟩
    cases hr : (resolveTarget k w config).1 with
    | ok a => simp [hr] at hfst
    | error o1 =>
      simp only [hr] at hfst
      have ho : o = o1 := by injection hfst
      rcases resolveTarget_error k w config o1 hr with h1 | ⟨err, h1⟩
      · exact Or.inr (ho.trans h1)
      · exact Or.inl ⟨err, ho.trans h1⟩
  · rw [hb] at htr
    simp only [] at htr ⊢
    cases hp : (if config.VulnerabilityScan = true then w.newPublisher config else none) with
    | some e => exact ⟨rfl, htr, Or.inr (Or.inl ⟨e, rfl⟩)⟩
    | none =>
      simp only []
      have ht2 : Effect.getVulnerabilityScanResults ∉
          t ++ (if config.VulnerabilityScan = true
                then [Effect.publishScanStatus "GENERATING_SBOM"] else []) := by
        simp [hv, htr]
      obtain ⟨h1, h2, h3⟩ := runSyft_quiet k w config (stripInsecure w config syftArgs) _ hv hq ht2
      refine ⟨h1, h2, ?_⟩
      rcases h3 with h3 | h3
      · exact Or.inl h3
      · exact Or.inr (Or.inl h3)

theorem replaceChars_done (old new : List Char) (l : List Char) (skip : Nat) :
    replaceChars old new skip (some 0) l = l.drop skip := by
  induction l generalizing skip with
  | nil => cases skip <;> simp [replaceChars]
  | cons c cs ih =>
    cases skip with
    | zero => simp [replaceChars, ih]
    | succ n => simp [replaceChars, ih]

/-- For a mount point written as the scan directory, a separator and a relative
path, lines 97-100 emit the pattern of the relative path. -/
theorem mountExclude_under (scanDir rel : String) (h : scanDir.data ≠ []) :
    mountExclude scanDir (scanDir ++ "/" ++ rel) = "./" ++ rel ++ "/**" := by
  obtain ⟨c, cs, hc⟩ : ∃ c cs, scanDir.data = c :: cs := by
    cases hd : scanDir.data with
    | nil => exact absurd hd h
    | cons c cs => exact ⟨c, cs, rfl⟩
  have hdata : (scanDir ++ "/" ++ rel).data = c :: (cs ++ '/' :: rel.data) := by
    simp [String.data_append, hc]
  have hpre : (c :: cs).isPrefixOf (c :: (cs ++ '/' :: rel.data)) = true := by
    rw [List.isPrefixOf_iff_prefix]
    exact ⟨'/' :: rel.data, by simp⟩
  have hidx : index (scanDir ++ "/" ++ rel) scanDir = 0 := by
    simp [index, hdata, hc, indexChars, hpre]
  have hrep : replace (scanDir ++ "/" ++ rel) scanDir "" 1 = "/" ++ rel := by
    unfold replace
    simp only [hc, hdata]
    simp [replaceChars, hpre, replaceChars_done]
    apply String.ext
    simp
  unfold mountExclude
  simp only [hidx, if_true, hrep]
  apply String.ext
  simp [String.data_append]

/-! ## The claims -/

/-- C1: target classification in the service handler is a total function of the
source, the node-type hint and the host name.  A source that starts with `dir:`
or equals `.` gives (HostName, Host); otherwise a hint equal to the container node
type gives (Source, Container); otherwise every other hint gives (Source, Image).
The pair is what the handler stores as NodeId and NodeType. -/
theorem classify_total (k : Consts) (s : Config) (r : SBOMRequest) :
    ((hasPrefix r.Source "dir:" = true ∨ r.Source = ".") →
      classify k r = (r.HostName, k.NodeTypeHost)) ∧
    (¬ (hasPrefix r.Source "dir:" = true ∨ r.Source = ".") →
      r.NodeType = k.NodeTypeContainer →
      classify k r = (r.Source, k.NodeTypeContainer)) ∧
    (¬ (hasPrefix r.Source "dir:" = true ∨ r.Source = ".") →
      r.NodeType ≠ k.NodeTypeContainer →
      classify k r = (r.Source, k.NodeTypeImage)) ∧
    (∀ r2 : SBOMRequest, r2.Source = r.Source → r2.NodeType = r.NodeType →
      r2.HostName = r.HostName → classify k r2 = classify k r) ∧
    ((gRPCServer.GenerateSBOM k s r).submitted.NodeId,
      (gRPCServer.GenerateSBOM k s r).submitted.NodeType) = classify k r := by
  refine ⟨?_, ?_, ?_, ?_, rfl⟩
  · intro h
    have h2 : (hasPrefix r.Source "dir:" || r.Source == ".") = true := by simpa using h
    simp [classify, h2]
  · intro h hc
    have h2 : ¬ (hasPrefix r.Source "dir:" || r.Source == ".") = true := by simpa using h
    simp [classify, h2, hc]
  · intro h hc
    have h2 : ¬ (hasPrefix r.Source "dir:" || r.Source == ".") = true := by simpa using h
    simp [classify, h2, hc]
  · intro r2 h1 h2 h3
    simp [classify, h1, h2, h3]

/-- Witness of C1: the directory request of host `node-1` is classified as
(`node-1`, Host). -/
theorem classify_total_witness :
    classify sampleConsts dirRequest = ("node-1", "host") :=
  (classify_total sampleConsts {} dirRequest).1 (Or.inl (by decide))

/-- C2: for every configuration the built argument vector is the vector of the
target resolution followed by the cataloger arguments, and these are exactly the
concatenation, in the order of the comma-separated tags of ScanType, of the fixed
`--catalogers <name>` pairs of each recognised tag.  An unrecognised tag adds
nothing and no error (the vector is built whenever the target resolution
succeeds, the target resolution does not read ScanType, and the loop step leaves
the vector as it is, so that `python,cobol,ruby` selects what `python,ruby`
selects); an empty ScanType or `all` adds no cataloger argument; `python,ruby`
gives the four python and ruby catalogers in that order. -/
theorem cataloger_selection (k : Consts) (w : World) (config : Config) :
    (∀ targetArgs, (resolveTarget k w config).1 = .ok targetArgs →
      (buildSyftArgs k w config).1 =
          .ok (targetArgs ++ specCatalogerArgs config.ScanType) ∧
        ∀ args, (GenerateSBOM k w config).args = some args →
          args = stripInsecure w config targetArgs ++ specCatalogerArgs config.ScanType) ∧
    (∀ scanType,
      resolveTarget k w { config with ScanType := scanType } = resolveTarget k w config) ∧
    (∀ syftArgs tag, specCatalogers.lookup tag = none →
      appendCatalogers syftArgs tag = syftArgs) ∧
    selectCatalogers { ScanType := "python,cobol,ruby" } [] =
      selectCatalogers { ScanType := "python,ruby" } [] ∧
    specCatalogerArgs "" = [] ∧
    specCatalogerArgs "all" = [] ∧
    specCatalogerArgs "python,ruby" =
      ["--catalogers", "python-index-cataloger", "--catalogers", "python-package-cataloger",
       "--catalogers", "ruby-gemfile-cataloger", "--catalogers", "ruby-gemspec-cataloger"] := by
  refine ⟨?_, ?_, ?_, by decide, by decide, by decide, by decide⟩
  · intro targetArgs ht
    refine ⟨?_, fun args h => GenerateSBOM_args k w config targetArgs args ht h⟩
    rw [buildSyftArgs_fst, ht]
  · intro scanType
    rfl
  · intro syftArgs tag h
    simp [appendCatalogers_eq, specTagArgs, h]

/-- Witness of C2: in the sample world the vector built for the directory
target with ScanType `python,ruby` ends with the four cataloger pairs. -/
theorem cataloger_selection_witness :
    (buildSyftArgs sampleConsts sampleWorld pythonRubyConfig).1 =
      .ok (pythonRubyTargetArgs ++ specCatalogerArgs "python,ruby") :=
  ((cataloger_selection sampleConsts sampleWorld pythonRubyConfig).1 pythonRubyTargetArgs
    (by rfl)).1

/-- C3 as stated fails: for the registry target of an insecure registry with
node type Container, `cmd.Env` is not set, the subprocess runs in the process
environment, and neither TLS-skip override is in it. -/
theorem insecure_env_missing_for_container :
    hasPrefix insecureContainerConfig.Source "registry:" = true ∧
    sampleWorld.isRegistryInsecure insecureContainerConfig.RegistryId = true ∧
    (GenerateSBOM sampleConsts sampleWorld insecureContainerConfig).env =
      some ["PATH=/usr/bin"] ∧
    "SYFT_REGISTRY_INSECURE_SKIP_TLS_VERIFY=true" ∉ ["PATH=/usr/bin"] ∧
    "SYFT_REGISTRY_INSECURE_USE_HTTP=true" ∉ ["PATH=/usr/bin"] := by
  decide

/-- C3 amended: for every registry-scheme target whose registry is marked
insecure, with a non-empty registry identifier and node type Image, the
environment of every subprocess that is started includes both TLS-skip
overrides. -/
theorem insecure_env_for_image (k : Consts) (w : World) (config : Config)
    (env : List String)
    (_hreg : hasPrefix config.Source "registry:" = true)
    (hins : w.isRegistryInsecure config.RegistryId = true)
    (hid : config.RegistryId ≠ "")
    (himg : config.NodeType = k.NodeTypeImage)
    (henv : (GenerateSBOM k w config).env = some env) :
    "SYFT_REGISTRY_INSECURE_SKIP_TLS_VERIFY=true" ∈ env ∧
      "SYFT_REGISTRY_INSECURE_USE_HTTP=true" ∈ env := by
  obtain ⟨cmdEnv, hc, rfl⟩ := GenerateSBOM_env k w config env henv
  unfold commandEnv at hc
  have hg : (config.RegistryId != "" && config.NodeType == k.NodeTypeImage) = true := by
    simp [hid, himg]
  rw [if_pos hg] at hc
  cases ha : w.getConfigFileFromRegistry config.RegistryId with
  | error e => simp [ha] at hc
  | ok authFilePath =>
    simp only [ha, hins, if_true] at hc
    injection hc with hc
    subst hc
    simp

/-- Witness of C3 amended: the image scan of the insecure registry in the sample
world. -/
theorem insecure_env_for_image_witness :
    "SYFT_REGISTRY_INSECURE_SKIP_TLS_VERIFY=true" ∈
        ["PATH=/usr/bin", "DOCKER_CONFIG=/tmp/auth-1",
         "SYFT_REGISTRY_INSECURE_SKIP_TLS_VERIFY=true",
         "SYFT_REGISTRY_INSECURE_USE_HTTP=true"] ∧
      "SYFT_REGISTRY_INSECURE_USE_HTTP=true" ∈
        ["PATH=/usr/bin", "DOCKER_CONFIG=/tmp/auth-1",
         "SYFT_REGISTRY_INSECURE_SKIP_TLS_VERIFY=true",
         "SYFT_REGISTRY_INSECURE_USE_HTTP=true"] :=
  insecure_env_for_image sampleConsts sampleWorld insecureImageConfig _
    (by decide) (by decide) (by decide) (by decide) (by decide)

/-- C4 at its failing input: the source `registry:regisregistry:try:5000/app` of
an insecure registry starts with `registry:`, and after the removal of every
occurrence of `registry:` the target locator (argument 1) is `registry:5000/app`,
which starts with `registry:` again. -/
theorem strip_reassembles_registry_scheme :
    hasPrefix reassembledConfig.Source "registry:" = true ∧
    sampleWorld.isRegistryInsecure reassembledConfig.RegistryId = true ∧
    (GenerateSBOM sampleConsts sampleWorld reassembledConfig).args.map
        (fun syftArgs => syftArgs.getD 1 "") = some "registry:5000/app" ∧
    hasPrefix "registry:5000/app" "registry:" = true := by
  decide

/-- C5 at its failing input: for the container target `web-1` (no `dir:` or
`registry:` prefix, node type Container) with runtime name containerd and a
runtime handle, plan construction calls `Save` and not `exportFileSystemTar`, and
the target locator becomes the archive `oci-archive:/tmp/syft-1/image.tar`. -/
theorem container_target_takes_save_branch :
    (hasPrefix containerdContainerConfig.Source "dir:" ||
      containerdContainerConfig.Source == ".") = false ∧
    hasPrefix containerdContainerConfig.Source "registry:" = false ∧
    containerdContainerConfig.NodeType = sampleConsts.NodeTypeContainer ∧
    (resolveTarget sampleConsts sampleWorld containerdContainerConfig).2 =
      [Effect.mkdirTemp, Effect.save "web-1" "/tmp/syft-1/image.tar"] ∧
    (GenerateSBOM sampleConsts sampleWorld containerdContainerConfig).args =
      some ["packages", "oci-archive:/tmp/syft-1/image.tar", "-o", "json", "--file",
            "/tmp/abcdefghijkloutput.json", "-q"] := by
  decide

/-- C6 at its failing input: for the source `dir:/` the scan directory is `/`,
the mount point `/mnt/nfs` lies under it with relative path `mnt/nfs`, and the
exclusion emitted for it is `.mnt/nfs/**`, not `./mnt/nfs/**`. -/
theorem root_scan_mount_exclusion :
    scanDirOf sampleWorld rootDirConfig.Source = "/" ∧
    mntDirs sampleWorld = ["/mnt/nfs"] ∧
    mountExclude "/" "/mnt/nfs" = ".mnt/nfs/**" ∧
    (GenerateSBOM sampleConsts sampleWorld rootDirConfig).args.map (fun a => a.drop 33) =
      some ["--exclude", ".mnt/nfs/**"] := by
  decide

/-- C7: the total-count gate is boundary-inclusive.  In every run in which the
scan results are retrieved (so vulnerability scanning is enabled and the tool
succeeded), if FailOnCount is positive and the total count is greater than or
equal to it, the run ends in the fatal exit of the count gate, whatever the
per-severity counts and thresholds, the score and the quiet flag are. -/
theorem total_count_gate_inclusive (k : Consts) (w : World) (config : Config)
    (d : VulnerabilityScanDetail)
    (hres : (GenerateSBOM k w config).results = some d)
    (hpos : 0 < config.FailOnCount)
    (hge : config.FailOnCount ≤ d.Total) :
    (GenerateSBOM k w config).outcome = .exitCount d.Total config.FailOnCount ∧
      (GenerateSBOM k w config).outcome.isGateExit = true := by
  obtain ⟨sbom, ho, _, _⟩ := GenerateSBOM_results k w config d hres
  have h : policyGates config d sbom = .exitCount d.Total config.FailOnCount := by
    simp [policyGates, countGates, exitOnSeverity, hpos, hge]
  rw [ho, h]
  exact ⟨rfl, rfl⟩

/-- Witness of C7: ten vulnerabilities against a FailOnCount of exactly ten. -/
theorem total_count_gate_inclusive_witness :
    (GenerateSBOM sampleConsts criticalWorld countTenConfig).outcome = .exitCount 10 10 ∧
      (GenerateSBOM sampleConsts criticalWorld countTenConfig).outcome.isGateExit = true :=
  total_count_gate_inclusive sampleConsts criticalWorld countTenConfig
    { Total := 10, Severity := { Critical := 10, High := 0, Medium := 0, Low := 0 },
      CveScore := F64.zero }
    (by decide) (by decide) (by decide)

/-- C8 at its failing input: with FailOnCount unset and a critical-count
threshold of five, a retrieved result of ten critical vulnerabilities satisfies
the critical gate, and the run returns the SBOM without a fatal exit. -/
theorem severity_gate_skipped_without_count :
    (GenerateSBOM sampleConsts criticalWorld criticalOnlyConfig).results =
      some { Total := 10, Severity := { Critical := 10, High := 0, Medium := 0, Low := 0 },
             CveScore := F64.zero } ∧
    0 < criticalOnlyConfig.FailOnCriticalCount ∧
    criticalOnlyConfig.FailOnCriticalCount ≤ 10 ∧
    (GenerateSBOM sampleConsts criticalWorld criticalOnlyConfig).outcome =
      .returned "sbom" := by
  decide

/-- C9 as stated fails: for the container request `web-1` in a world whose
detected runtime is none of the three supported ones, the run on the handler's
configuration neither returns the SBOM bytes nor returns an error: it ends in the
`os.Exit(1)` of `exportFileSystemTar` (lines 48-51). -/
theorem service_path_runtime_exit :
    (gRPCServer.GenerateSBOM sampleConsts {} containerRequest).submitted.NodeType =
      sampleConsts.NodeTypeContainer ∧
    (processSbomGeneration sampleConsts podmanWorld
      (gRPCServer.GenerateSBOM sampleConsts {} containerRequest).submitted).outcome =
        .exitRuntime ∧
    (¬ ∃ sbom, (processSbomGeneration sampleConsts podmanWorld
      (gRPCServer.GenerateSBOM sampleConsts {} containerRequest).submitted).outcome =
        .returned sbom) ∧
    (¬ ∃ sbom err, (processSbomGeneration sampleConsts podmanWorld
      (gRPCServer.GenerateSBOM sampleConsts {} containerRequest).submitted).outcome =
        .failed sbom err) := by
  have h : (processSbomGeneration sampleConsts podmanWorld
      (gRPCServer.GenerateSBOM sampleConsts {} containerRequest).submitted).outcome =
        .exitRuntime := by decide
  refine ⟨by decide, h, ?_, ?_⟩
  · rintro ⟨sbom, h2⟩
    rw [h] at h2
    cases h2
  · rintro ⟨sbom, err, h2⟩
    rw [h] at h2
    cases h2

/-- C9 amended: no request of the service path reaches a policy-gate exit.  The
handler always answers `sbom generation started` with no error; the
configuration it submits has vulnerability scanning enabled, quiet mode set and
all count and score thresholds zero; and `GenerateSBOM` run by a worker on it
never retrieves scan results, never ends in a gate exit, and ends with the bytes
read from the output file at the quiet-mode early return, with an error, or with
the runtime-detection exit of the extractor. -/
theorem service_path_no_gate_exit (k : Consts) (w : World) (s : Config) (r : SBOMRequest) :
    (gRPCServer.GenerateSBOM k s r).result = { Sbom := "sbom generation started" } ∧
    (gRPCServer.GenerateSBOM k s r).err = none ∧
    (gRPCServer.GenerateSBOM k s r).submitted.VulnerabilityScan = true ∧
    (gRPCServer.GenerateSBOM k s r).submitted.Quiet = true ∧
    (gRPCServer.GenerateSBOM k s r).submitted.FailOnCount = 0 ∧
    (gRPCServer.GenerateSBOM k s r).submitted.FailOnCriticalCount = 0 ∧
    (gRPCServer.GenerateSBOM k s r).submitted.FailOnHighCount = 0 ∧
    (gRPCServer.GenerateSBOM k s r).submitted.FailOnMediumCount = 0 ∧
    (gRPCServer.GenerateSBOM k s r).submitted.FailOnLowCount = 0 ∧
    (gRPCServer.GenerateSBOM k s r).submitted.FailOnScore = F64.zero ∧
    (processSbomGeneration k w (gRPCServer.GenerateSBOM k s r).submitted).results = none ∧
    Effect.getVulnerabilityScanResults ∉
      (processSbomGeneration k w (gRPCServer.GenerateSBOM k s r).submitted).trace ∧
    (processSbomGeneration k w
      (gRPCServer.GenerateSBOM k s r).submitted).outcome.isGateExit = false ∧
    ((∃ sbom, w.readFile (jsonFile w) = .ok sbom ∧
        (processSbomGeneration k w (gRPCServer.GenerateSBOM k s r).submitted).outcome =
          .returned sbom) ∨
      (∃ err,
        (processSbomGeneration k w (gRPCServer.GenerateSBOM k s r).submitted).outcome =
          .failed none err) ∨
      (processSbomGeneration k w (gRPCServer.GenerateSBOM k s r).submitted).outcome =
        .exitRuntime) := by
  have hq : (handlerConfig k s r).Quiet = true ∧
      F64.le (handlerConfig k s r).FailOnScore F64.zero = true ∧
      (handlerConfig k s r).FailOnCount ≤ 0 := by
    refine ⟨rfl, ?_, le_refl _⟩
    simp [handlerConfig, F64.zero, F64.le]
  obtain ⟨h1, h2, h3⟩ := GenerateSBOM_quiet k w (handlerConfig k s r) rfl hq
  refine ⟨rfl, rfl, rfl, rfl, rfl, rfl, rfl, rfl, rfl, rfl, h1, h2, ?_, h3⟩
  show (GenerateSBOM k w (handlerConfig k s r)).outcome.isGateExit = false
  rcases h3 with ⟨sbom, _, h⟩ | ⟨err, h⟩ | h <;> rw [h] <;> rfl

/-- C10 at its failing input: with a FailOnCount of five, all per-severity
thresholds and FailOnScore unset, a retrieved result with zero vulnerabilities
ends in the fatal exit of the count gate, the critical count `0` being compared
with the unset threshold `0`. -/
theorem zero_vulnerabilities_exit :
    (GenerateSBOM sampleConsts sampleWorld countOnlyConfig).results =
      some { Total := 0, Severity := { Critical := 0, High := 0, Medium := 0, Low := 0 },
             CveScore := F64.zero } ∧
    (GenerateSBOM sampleConsts sampleWorld countOnlyConfig).outcome = .exitCount 0 0 ∧
    (GenerateSBOM sampleConsts sampleWorld countOnlyConfig).outcome.isGateExit = true := by
  decide

end PackageSbom
